import Mathlib

/-
Verification of the state-aggregation core of GlobalWebIndex/healthcheck
(handlers/grpc_handler.go, checks/grpc.go).

The Go handler keeps three named result sets behind mutexes:
  readinessChecks : map[string]error
  livenessChecks  : map[string]error
  grpcDeps        : map[string]bool
and a gRPC health-server serving-status flag.

We embed the maps as association lists with unique keys (Go map reads of a
missing key yield the zero value, which we reproduce with `Option.getD`),
`error` as `Option String` (`none` = nil = OK, `some msg` = Failed), and the
serving flag as `Bool` (`true` = SERVING).  Every mutation the handler
performs under a lock, together with the flag update it issues right after
releasing the lock, is modelled as one atomic step of a transition system.
-/

namespace Healthcheck

/-- A Go `error` value: `none` is the nil error (check passed), `some msg`
is a failed check carrying the message `msg`. -/
abbrev ErrRes := Option String

/-- Go map read `m[k]` restricted to presence information: `lookupEntry l k`
is `some v` when key `k` is bound to `v`, `none` when absent. -/
def lookupEntry (l : List (String × α)) (k : String) : Option α :=
  match l with
  | [] => none
  | p :: rest => if p.1 = k then some p.2 else lookupEntry rest k

/-- Go map write `m[k] = v`: update the binding of `k` in place, or append a
new binding when `k` is absent. -/
def setEntry (l : List (String × α)) (k : String) (v : α) : List (String × α) :=
  match l with
  | [] => [(k, v)]
  | p :: rest => if p.1 = k then (k, v) :: rest else p :: setEntry rest k v

/-- Serving status values of the gRPC health protocol
(`grpc_health_v1.HealthCheckResponse_ServingStatus`). -/
inductive GrpcStatus
  | unknown
  | serving
  | notServing
  | serviceUnknown
deriving DecidableEq

/-- The `ServingStatus_name` table used by `CheckGRPC` to format a bad
status. -/
def servingStatusName : GrpcStatus → String
  | .unknown => "UNKNOWN"
  | .serving => "SERVING"
  | .notServing => "NOT_SERVING"
  | .serviceUnknown => "SERVICE_UNKNOWN"

/-- The mutable state of `grpcHandler`: the three result sets and the
health server's serving-status flag (`true` = SERVING). -/
structure GrpcHandlerState where
  readinessChecks : List (String × ErrRes)
  livenessChecks : List (String × ErrRes)
  grpcDeps : List (String × Bool)
  servingStatus : Bool
deriving DecidableEq

/-- `NewGrpcHandler`: empty result sets, and the flag is initialised to
NOT_SERVING before any check starts. -/
def initialState : GrpcHandlerState :=
  { readinessChecks := []
    livenessChecks := []
    grpcDeps := []
    servingStatus := false }

/-- `areChecksOk`: true only when the last executions of all readiness and
liveness check functions produced nil errors. -/
def areChecksOk (s : GrpcHandlerState) : Bool :=
  s.readinessChecks.all (fun p => p.2.isNone) && s.livenessChecks.all (fun p => p.2.isNone)

/-- `areGrpcDepsOk`: true only when the last observed health of every gRPC
dependency was SERVING. -/
def areGrpcDepsOk (s : GrpcHandlerState) : Bool :=
  s.grpcDeps.all (fun p => p.2)

/-- Registration half of `AddReadinessCheck`: reject a duplicate name before
any mutation, otherwise store the placeholder failure ("we start in failed
state").  The periodic closure it spawns is modelled by `runReadinessCheck`. -/
def AddReadinessCheck (s : GrpcHandlerState) (name : String) :
    Except String Unit × GrpcHandlerState :=
  if (lookupEntry s.readinessChecks name).isSome then
    (Except.error ("readiness check " ++ name ++ " already exists"), s)
  else
    (Except.ok (),
      { s with readinessChecks := setEntry s.readinessChecks name (some "placeholder") })

/-- Registration half of `AddLivenessCheck`, symmetric to
`AddReadinessCheck` on the liveness result set. -/
def AddLivenessCheck (s : GrpcHandlerState) (name : String) :
    Except String Unit × GrpcHandlerState :=
  if (lookupEntry s.livenessChecks name).isSome then
    (Except.error ("liveness check " ++ name ++ " already exists"), s)
  else
    (Except.ok (),
      { s with livenessChecks := setEntry s.livenessChecks name (some "placeholder") })

/-- Registration half of `AddGrpcReadinessCheck`: reject a duplicate name
before any mutation, otherwise store the initial down flag and open the
watch stream.  `watchErr` is the outcome of `grpcClient.Watch`: when the
call fails its error is returned to the caller, but the down entry has
already been stored at that point (as in the source). -/
def AddGrpcReadinessCheck (s : GrpcHandlerState) (name : String)
    (watchErr : Option String) : Except String Unit × GrpcHandlerState :=
  if (lookupEntry s.grpcDeps name).isSome then
    (Except.error ("grpc readiness check " ++ name ++ " already exists"), s)
  else
    let s1 := { s with grpcDeps := setEntry s.grpcDeps name false }
    match watchErr with
    | some e => (Except.error e, s1)
    | none => (Except.ok (), s1)

/-- One cycle of the background closure spawned by `AddReadinessCheck`,
given the outcome `err` of `check()`.  Mirrors the three-way switch of the
source: a fresh failure is stored and the flag is set NOT_SERVING
immediately; a recovery is stored and the flag moves to SERVING only when
the full aggregate (`areChecksOk` and `areGrpcDepsOk`) holds afterwards;
in the default branch nothing is stored and nothing is touched.  A read of
an unregistered name yields Go's zero value (nil), via `getD`. -/
def runReadinessCheck (s : GrpcHandlerState) (name : String) (err : ErrRes) :
    GrpcHandlerState :=
  let prev := (lookupEntry s.readinessChecks name).getD none
  if prev = none ∧ err ≠ none then
    { s with readinessChecks := setEntry s.readinessChecks name err, servingStatus := false }
  else if prev ≠ none ∧ err = none then
    let s1 := { s with readinessChecks := setEntry s.readinessChecks name err }
    if areChecksOk s1 && areGrpcDepsOk s1 then { s1 with servingStatus := true } else s1
  else s

/-- One cycle of the background closure spawned by `AddLivenessCheck`,
symmetric to `runReadinessCheck` on the liveness result set. -/
def runLivenessCheck (s : GrpcHandlerState) (name : String) (err : ErrRes) :
    GrpcHandlerState :=
  let prev := (lookupEntry s.livenessChecks name).getD none
  if prev = none ∧ err ≠ none then
    { s with livenessChecks := setEntry s.livenessChecks name err, servingStatus := false }
  else if prev ≠ none ∧ err = none then
    let s1 := { s with livenessChecks := setEntry s.livenessChecks name err }
    if areChecksOk s1 && areGrpcDepsOk s1 then { s1 with servingStatus := true } else s1
  else s

/-- Processing of one received watch event in the goroutine spawned by
`AddGrpcReadinessCheck`: a down-to-up edge stores the up flag and moves the
serving status to SERVING only when the full aggregate holds afterwards
(otherwise `continue`); an up-to-down edge stores the down flag and sets
NOT_SERVING immediately; a repeated or unexpected status is logged and
ignored. -/
def grpcWatchStep (s : GrpcHandlerState) (name : String) (st : GrpcStatus) :
    GrpcHandlerState :=
  let cur := (lookupEntry s.grpcDeps name).getD false
  if st = GrpcStatus.serving ∧ cur = false then
    let s1 := { s with grpcDeps := setEntry s.grpcDeps name true }
    if areGrpcDepsOk s1 && areChecksOk s1 then { s1 with servingStatus := true } else s1
  else if st = GrpcStatus.notServing ∧ cur = true then
    { s with grpcDeps := setEntry s.grpcDeps name false, servingStatus := false }
  else s

/-- The interleaved events the handler state reacts to: registrations and
the per-cycle outcomes of the background check closures and watch
goroutines. -/
inductive Event
  | regReadiness (name : String)
  | regLiveness (name : String)
  | regGrpcDep (name : String) (watchErr : Option String)
  | runReadiness (name : String) (err : ErrRes)
  | runLiveness (name : String) (err : ErrRes)
  | watchEvent (name : String) (st : GrpcStatus)
deriving DecidableEq

/-- The transition function of the handler: a failed registration leaves
the state as the source leaves it (`AddGrpcReadinessCheck` can fail after
storing the down entry), and each background cycle applies its switch. -/
def step (s : GrpcHandlerState) : Event → GrpcHandlerState
  | .regReadiness n => (AddReadinessCheck s n).2
  | .regLiveness n => (AddLivenessCheck s n).2
  | .regGrpcDep n werr => (AddGrpcReadinessCheck s n werr).2
  | .runReadiness n err => runReadinessCheck s n err
  | .runLiveness n err => runLivenessCheck s n err
  | .watchEvent n st => grpcWatchStep s n st

/-- Execution of a sequence of events from a state. -/
def run (s : GrpcHandlerState) (evs : List Event) : GrpcHandlerState :=
  evs.foldl step s

/-- The healthy-everywhere predicate of the spec: every stored readiness
error is nil, every stored liveness error is nil, and every gRPC dependency
flag is up. -/
def allHealthy (s : GrpcHandlerState) : Prop :=
  (∀ p ∈ s.readinessChecks, p.2 = none) ∧
    (∀ p ∈ s.livenessChecks, p.2 = none) ∧
    (∀ p ∈ s.grpcDeps, p.2 = true)

instance (s : GrpcHandlerState) : Decidable (allHealthy s) := by
  unfold allHealthy; infer_instance

example : (run initialState [Event.regReadiness "a"]).readinessChecks
    = [("a", some "placeholder")] := by decide

example : (run initialState
    [Event.regReadiness "a", Event.runReadiness "a" none]).servingStatus = true := by decide

/-- Body of an HTTP response of the two endpoints: the short body literal
"{}", the `?full=1` JSON encoding of the results map, or the plain-text
body written by `http.Error`. -/
inductive HttpBody
  | emptyObj
  | jsonMap (m : List (String × String))
  | errText (msg : String)
deriving DecidableEq

/-- An HTTP response: status code and body. -/
structure HttpResponse where
  status : Nat
  body : HttpBody
deriving DecidableEq

/-- Common loop shape of `livenessOkWithResults`, `readinessOkWithResults`
and `grpcDepsOkWithResults`: each entry carries `none` when its last result
was healthy and `some msg` with its failure text otherwise; the loop writes
"OK" or the failure text into the shared results map and clears `ok` on any
failure. -/
def foldResults (entries : List (String × Option String))
    (acc : Bool × List (String × String)) : Bool × List (String × String) :=
  match entries with
  | [] => acc
  | p :: rest =>
      match p.2 with
      | some msg => foldResults rest (false, setEntry acc.2 p.1 msg)
      | none => foldResults rest (acc.1, setEntry acc.2 p.1 "OK")

/-- `livenessOkWithResults`: scan the liveness results into the shared map,
returning whether all were healthy. -/
def livenessOkWithResults (s : GrpcHandlerState) (results : List (String × String)) :
    Bool × List (String × String) :=
  foldResults s.livenessChecks (true, results)

/-- `readinessOkWithResults`: scan the readiness results into the shared
map, returning whether all were healthy. -/
def readinessOkWithResults (s : GrpcHandlerState) (results : List (String × String)) :
    Bool × List (String × String) :=
  foldResults s.readinessChecks (true, results)

/-- The failure view of the gRPC dependency flags: a down dependency reports
the fixed text "grpc service is down". -/
def grpcFailureView (deps : List (String × Bool)) : List (String × Option String) :=
  deps.map (fun p => (p.1, if p.2 then none else some "grpc service is down"))

/-- `grpcDepsOkWithResults`: scan the gRPC dependency flags into the shared
map, returning whether all were up. -/
def grpcDepsOkWithResults (s : GrpcHandlerState) (results : List (String × String)) :
    Bool × List (String × String) :=
  foldResults (grpcFailureView s.grpcDeps) (true, results)

/-- The scanning phase of `ReadyEndpoint`: the source combines the three
scans with Go's short-circuiting `&&` (`ok = ok && ...` three times, in the
order liveness, readiness, gRPC), so a namespace is scanned into the shared
results map only while every earlier namespace was fully healthy. -/
def readyScan (s : GrpcHandlerState) : Bool × List (String × String) :=
  let r1 := livenessOkWithResults s []
  let r2 := if r1.1 then readinessOkWithResults s r1.2 else (false, r1.2)
  if r2.1 then grpcDepsOkWithResults s r2.2 else (false, r2.2)

/-- The scanning phase of `LiveEndpoint`: only the liveness results. -/
def liveScan (s : GrpcHandlerState) : Bool × List (String × String) :=
  livenessOkWithResults s []

/-- `ReadyEndpoint`, with the request reduced to its method and the value of
the `full` query parameter ("" when absent): non-GET gives 405; otherwise
the aggregate decides 200 against 503 and the body is "{}" unless
`full=1`, in which case the scanned results map is encoded. -/
def ReadyEndpoint (s : GrpcHandlerState) (method fullParam : String) : HttpResponse :=
  if method ≠ "GET" then ⟨405, HttpBody.errText "method not allowed"⟩
  else
    let r := readyScan s
    let status := if r.1 then 200 else 503
    if fullParam = "1" then ⟨status, HttpBody.jsonMap r.2⟩
    else ⟨status, HttpBody.emptyObj⟩

/-- `LiveEndpoint`: same shape as `ReadyEndpoint` but aggregating only the
liveness results. -/
def LiveEndpoint (s : GrpcHandlerState) (method fullParam : String) : HttpResponse :=
  if method ≠ "GET" then ⟨405, HttpBody.errText "method not allowed"⟩
  else
    let r := liveScan s
    let status := if r.1 then 200 else 503
    if fullParam = "1" then ⟨status, HttpBody.jsonMap r.2⟩
    else ⟨status, HttpBody.emptyObj⟩

/-- The outcome of one `stream.Recv()` call in the watch goroutine of
`AddGrpcReadinessCheck`: clean end of stream (`err == io.EOF`, in which
case the gRPC stream contract makes the returned response nil), a transport
error, or a received health event. -/
inductive RecvResult
  | eof
  | transportError (msg : String)
  | event (st : GrpcStatus)
deriving DecidableEq

/-- What one iteration of the watch goroutine loop does with the `Recv`
outcome. -/
inductive WatchLoopAction
  | continueLoop (next : GrpcHandlerState)
  | terminate
  | crash
deriving DecidableEq

/-- One iteration of the `for` loop of the watch goroutine, traced from the
source: on `err == io.EOF` the `break` statement only exits the inner
`switch`, so control falls through to `resp.Status` with `resp` nil — a
nil-pointer dereference (modelled as `crash`), taken while holding
`grpcDepsMutex`; on any other non-nil error the goroutine logs and
`return`s (`terminate`); otherwise the event is processed by the status
switch and the loop continues. -/
def watchLoopIteration (s : GrpcHandlerState) (name : String) (r : RecvResult) :
    WatchLoopAction :=
  match r with
  | .eof => WatchLoopAction.crash
  | .transportError _ => WatchLoopAction.terminate
  | .event st => WatchLoopAction.continueLoop (grpcWatchStep s name st)

/-- The outcome of the unary `grpcClient.Check` RPC issued by the function
`CheckGRPC` builds: either a non-nil error (including the deadline error
when the 1-second timeout fires) or a response carrying a status. -/
inductive CheckRpcOutcome
  | rpcError (msg : String)
  | response (st : GrpcStatus)
deriving DecidableEq

/-- The check function returned by `CheckGRPC`, as a function of the RPC
outcome: an RPC error is wrapped and returned; a response with any status
other than SERVING yields the bad-status error; only SERVING yields nil. -/
def CheckGRPC (outcome : CheckRpcOutcome) : ErrRes :=
  match outcome with
  | .rpcError msg => some ("gRPC healthcheck failed: " ++ msg)
  | .response st =>
      if st = GrpcStatus.serving then none
      else some ("gRPC healthcheck failed, bad status: " ++ servingStatusName st)

/-- Keys of an association list, i.e. the key set of a Go map rendered in
insertion order. -/
def entryKeys (l : List (String × α)) : List String :=
  l.map Prod.fst

/-- Key set of a JSON body; empty for the other body shapes. -/
def bodyKeys : HttpBody → List String
  | .jsonMap m => entryKeys m
  | _ => []

/-- The readiness aggregate of the spec: liveness, readiness and gRPC
dependency results all healthy. -/
def readyAggregate (s : GrpcHandlerState) : Bool :=
  s.livenessChecks.all (fun p => p.2.isNone) &&
    (s.readinessChecks.all (fun p => p.2.isNone) && s.grpcDeps.all (fun p => p.2))

/-- The liveness aggregate of the spec: liveness results only. -/
def liveAggregate (s : GrpcHandlerState) : Bool :=
  s.livenessChecks.all (fun p => p.2.isNone)

example :
    ReadyEndpoint { initialState with livenessChecks := [("l", some "boom")] } "GET" "1"
      = ⟨503, HttpBody.jsonMap [("l", "boom")]⟩ := by decide

example : LiveEndpoint initialState "POST" "" = ⟨405, HttpBody.errText "method not allowed"⟩ := by
  decide

/-! ### Association-list lemmas -/

theorem mem_setEntry {α : Type} {l : List (String × α)} {k : String} {v : α}
    {q : String × α} (h : q ∈ setEntry l k v) : q = (k, v) ∨ q ∈ l := by
  induction l with
  | nil => simpa [setEntry] using h
  | cons p rest ih =>
    simp only [setEntry] at h
    split at h
    · rcases List.mem_cons.mp h with h1 | h1
      · exact Or.inl h1
      · exact Or.inr (List.mem_cons_of_mem _ h1)
    · rcases List.mem_cons.mp h with h1 | h1
      · exact Or.inr (h1 ▸ List.mem_cons_self _ _)
      · rcases ih h1 with h2 | h2
        · exact Or.inl h2
        · exact Or.inr (List.mem_cons_of_mem _ h2)

theorem mem_setEntry_of_ne {α : Type} {l : List (String × α)} {k : String} {v : α}
    {q : String × α} (hq : q ∈ l) (hne : q.1 ≠ k) : q ∈ setEntry l k v := by
  induction l with
  | nil => cases hq
  | cons p rest ih =>
    simp only [setEntry]
    rcases List.mem_cons.mp hq with h1 | h1
    · subst h1
      split
      · next hp => exact absurd hp hne
      · exact List.mem_cons_self _ _
    · split
      · exact List.mem_cons_of_mem _ h1
      · exact List.mem_cons_of_mem _ (ih h1)

theorem lookupEntry_setEntry_self {α : Type} (l : List (String × α)) (k : String) (v : α) :
    lookupEntry (setEntry l k v) k = some v := by
  induction l with
  | nil => simp [setEntry, lookupEntry]
  | cons p rest ih =>
    simp only [setEntry]
    split
    · simp [lookupEntry]
    · next hp => simpa [lookupEntry, hp] using ih

theorem lookupEntry_setEntry_ne {α : Type} (l : List (String × α)) {k k' : String} (v : α)
    (h : k' ≠ k) : lookupEntry (setEntry l k v) k' = lookupEntry l k' := by
  induction l with
  | nil =>
    simp only [setEntry, lookupEntry]
    rw [if_neg (fun hk => h hk.symm)]
  | cons p rest ih =>
    simp only [setEntry]
    split
    · next hp =>
      simp only [lookupEntry]
      rw [if_neg (fun hk => h hk.symm), if_neg (fun hk => h (hk.symm.trans hp))]
    · simp only [lookupEntry]
      split
      · rfl
      · exact ih

theorem mem_entryKeys_setEntry {α : Type} (l : List (String × α)) (k k' : String) (v : α) :
    k' ∈ entryKeys (setEntry l k v) ↔ k' = k ∨ k' ∈ entryKeys l := by
  induction l with
  | nil => simp [setEntry, entryKeys, eq_comm]
  | cons p rest ih =>
    simp only [setEntry]
    split
    · next hp => simp [entryKeys, hp, eq_comm]
    · simp only [entryKeys, List.map_cons, List.mem_cons] at ih ⊢
      rw [ih]
      tauto

/-! ### Lemmas about the shared results-scanning loop -/

theorem foldResults_fst (entries : List (String × Option String))
    (acc : Bool × List (String × String)) :
    (foldResults entries acc).1 = (acc.1 && entries.all (fun p => p.2.isNone)) := by
  induction entries generalizing acc with
  | nil => simp [foldResults]
  | cons p rest ih =>
    simp only [foldResults]
    cases hp : p.2 with
    | none => rw [ih]; simp [List.all_cons, hp]
    | some msg => rw [ih]; simp [List.all_cons, hp]

theorem mem_foldResults_keys (entries : List (String × Option String))
    (acc : Bool × List (String × String)) (k : String) :
    k ∈ entryKeys (foldResults entries acc).2 ↔
      k ∈ entryKeys acc.2 ∨ k ∈ entryKeys entries := by
  induction entries generalizing acc with
  | nil => simp [foldResults, entryKeys]
  | cons p rest ih =>
    simp only [foldResults]
    cases hp : p.2 with
    | none =>
      rw [ih]
      simp only [mem_entryKeys_setEntry]
      simp only [entryKeys, List.map_cons, List.mem_cons]
      tauto
    | some msg =>
      rw [ih]
      simp only [mem_entryKeys_setEntry]
      simp only [entryKeys, List.map_cons, List.mem_cons]
      tauto

/-! ### Aggregate lemmas -/

theorem aggregate_true_iff_allHealthy (s : GrpcHandlerState) :
    (areChecksOk s && areGrpcDepsOk s) = true ↔ allHealthy s := by
  simp [areChecksOk, areGrpcDepsOk, allHealthy, List.all_eq_true,
    Option.isNone_iff_eq_none, and_assoc]

theorem all_isNone_false_of_mem {l : List (String × ErrRes)} {p : String × ErrRes}
    (hp : p ∈ l) (hne : p.2 ≠ none) : l.all (fun q => q.2.isNone) = false := by
  cases h : l.all (fun q => q.2.isNone)
  · rfl
  · exact absurd (Option.isNone_iff_eq_none.mp (List.all_eq_true.mp h p hp)) hne

theorem all_snd_false_of_mem {l : List (String × Bool)} {p : String × Bool}
    (hp : p ∈ l) (hf : p.2 = false) : l.all (fun q => q.2) = false := by
  cases h : l.all (fun q => q.2)
  · rfl
  · rw [List.all_eq_true.mp h p hp] at hf; cases hf

theorem allHealthy_flagUpdate (s : GrpcHandlerState) (b : Bool) :
    allHealthy { s with servingStatus := b } ↔ allHealthy s := Iff.rfl

theorem allHealthy_set_readiness {s : GrpcHandlerState} (h : allHealthy s) (n : String) :
    allHealthy { s with readinessChecks := setEntry s.readinessChecks n none } := by
  refine ⟨fun p hp => ?_, h.2.1, h.2.2⟩
  rcases mem_setEntry hp with h1 | h1
  · rw [h1]
  · exact h.1 p h1

theorem allHealthy_set_liveness {s : GrpcHandlerState} (h : allHealthy s) (n : String) :
    allHealthy { s with livenessChecks := setEntry s.livenessChecks n none } := by
  refine ⟨h.1, fun p hp => ?_, h.2.2⟩
  rcases mem_setEntry hp with h1 | h1
  · rw [h1]
  · exact h.2.1 p h1

theorem allHealthy_set_grpc {s : GrpcHandlerState} (h : allHealthy s) (n : String) :
    allHealthy { s with grpcDeps := setEntry s.grpcDeps n true } := by
  refine ⟨h.1, h.2.1, fun p hp => ?_⟩
  rcases mem_setEntry hp with h1 | h1
  · rw [h1]
  · exact h.2.2 p h1

theorem aggregate_comm_true_iff_allHealthy (s : GrpcHandlerState) :
    (areGrpcDepsOk s && areChecksOk s) = true ↔ allHealthy s := by
  rw [Bool.and_comm]
  exact aggregate_true_iff_allHealthy s

/-! ### Event classification -/

/-- Whether an event is one of the three registration calls. -/
def isRegistration : Event → Bool
  | .regReadiness _ => true
  | .regLiveness _ => true
  | .regGrpcDep _ _ => true
  | _ => false

/-- Whether an event is a cycle of the readiness check named `n`. -/
def isRunReadinessFor (e : Event) (n : String) : Bool :=
  match e with
  | .runReadiness m _ => if m = n then true else false
  | _ => false

/-- Whether an event is a cycle of the liveness check named `n`. -/
def isRunLivenessFor (e : Event) (n : String) : Bool :=
  match e with
  | .runLiveness m _ => if m = n then true else false
  | _ => false

/-- Whether an event is a watch event for the gRPC dependency named `n`. -/
def isWatchEventFor (e : Event) (n : String) : Bool :=
  match e with
  | .watchEvent m _ => if m = n then true else false
  | _ => false

/-! ### The serving-flag invariant is preserved by check cycles and watch
events -/

theorem runReadinessCheck_flag_invariant (s : GrpcHandlerState) (n : String) (err : ErrRes)
    (h : s.servingStatus = true → allHealthy s) :
    (runReadinessCheck s n err).servingStatus = true →
      allHealthy (runReadinessCheck s n err) := by
  simp only [runReadinessCheck]
  split
  · simp
  · split
    · next h2 =>
      split
      · next h3 =>
        intro _
        exact (aggregate_true_iff_allHealthy _).mp h3
      · intro hflag
        have hs := h hflag
        rw [h2.2]
        exact allHealthy_set_readiness hs n
    · exact h

theorem runLivenessCheck_flag_invariant (s : GrpcHandlerState) (n : String) (err : ErrRes)
    (h : s.servingStatus = true → allHealthy s) :
    (runLivenessCheck s n err).servingStatus = true →
      allHealthy (runLivenessCheck s n err) := by
  simp only [runLivenessCheck]
  split
  · simp
  · split
    · next h2 =>
      split
      · next h3 =>
        intro _
        exact (aggregate_true_iff_allHealthy _).mp h3
      · intro hflag
        have hs := h hflag
        rw [h2.2]
        exact allHealthy_set_liveness hs n
    · exact h

theorem grpcWatchStep_flag_invariant (s : GrpcHandlerState) (n : String) (st : GrpcStatus)
    (h : s.servingStatus = true → allHealthy s) :
    (grpcWatchStep s n st).servingStatus = true → allHealthy (grpcWatchStep s n st) := by
  simp only [grpcWatchStep]
  split
  · split
    · next h3 =>
      intro _
      exact (aggregate_comm_true_iff_allHealthy _).mp h3
    · intro hflag
      exact allHealthy_set_grpc (h hflag) n
  · split
    · simp
    · exact h

theorem step_flag_invariant (s : GrpcHandlerState) (e : Event)
    (he : isRegistration e = false)
    (h : s.servingStatus = true → allHealthy s) :
    (step s e).servingStatus = true → allHealthy (step s e) := by
  cases e with
  | regReadiness n => simp [isRegistration] at he
  | regLiveness n => simp [isRegistration] at he
  | regGrpcDep n w => simp [isRegistration] at he
  | runReadiness n err => exact runReadinessCheck_flag_invariant s n err h
  | runLiveness n err => exact runLivenessCheck_flag_invariant s n err h
  | watchEvent n st => exact grpcWatchStep_flag_invariant s n st h

theorem run_flag_invariant (s : GrpcHandlerState) (evs : List Event)
    (hevs : ∀ e ∈ evs, isRegistration e = false)
    (h : s.servingStatus = true → allHealthy s) :
    (run s evs).servingStatus = true → allHealthy (run s evs) := by
  induction evs generalizing s with
  | nil => exact h
  | cons e rest ih =>
    have h1 := step_flag_invariant s e (hevs e (List.mem_cons_self _ _)) h
    exact ih (step s e) (fun e' he' => hevs e' (List.mem_cons_of_mem _ he')) h1

/-! ### A registered entry is only written by its own runner/watcher -/

theorem step_preserves_readiness_entry (s : GrpcHandlerState) (n : String) (e : Event)
    (hs : (lookupEntry s.readinessChecks n).isSome = true)
    (he : isRunReadinessFor e n = false) :
    lookupEntry (step s e).readinessChecks n = lookupEntry s.readinessChecks n := by
  cases e with
  | regReadiness m =>
    simp only [step, AddReadinessCheck]
    split
    · rfl
    · next hm =>
      by_cases hmn : n = m
      · subst hmn; exact absurd hs hm
      · exact lookupEntry_setEntry_ne _ _ hmn
  | regLiveness m =>
    simp only [step, AddLivenessCheck]
    split <;> rfl
  | regGrpcDep m w =>
    simp only [step, AddGrpcReadinessCheck]
    split
    · rfl
    · cases w <;> rfl
  | runReadiness m err =>
    have hmn : ¬ m = n := by
      simp only [isRunReadinessFor] at he
      by_contra hc
      rw [if_pos hc] at he
      cases he
    simp only [step, runReadinessCheck]
    split
    · exact lookupEntry_setEntry_ne _ _ (fun hk => hmn hk.symm)
    · split
      · split
        · exact lookupEntry_setEntry_ne _ _ (fun hk => hmn hk.symm)
        · exact lookupEntry_setEntry_ne _ _ (fun hk => hmn hk.symm)
      · rfl
  | runLiveness m err =>
    simp only [step, runLivenessCheck]
    split
    · rfl
    · split
      · split <;> rfl
      · rfl
  | watchEvent m st =>
    simp only [step, grpcWatchStep]
    split
    · split <;> rfl
    · split <;> rfl

theorem step_preserves_liveness_entry (s : GrpcHandlerState) (n : String) (e : Event)
    (hs : (lookupEntry s.livenessChecks n).isSome = true)
    (he : isRunLivenessFor e n = false) :
    lookupEntry (step s e).livenessChecks n = lookupEntry s.livenessChecks n := by
  cases e with
  | regLiveness m =>
    simp only [step, AddLivenessCheck]
    split
    · rfl
    · next hm =>
      by_cases hmn : n = m
      · subst hmn; exact absurd hs hm
      · exact lookupEntry_setEntry_ne _ _ hmn
  | regReadiness m =>
    simp only [step, AddReadinessCheck]
    split <;> rfl
  | regGrpcDep m w =>
    simp only [step, AddGrpcReadinessCheck]
    split
    · rfl
    · cases w <;> rfl
  | runLiveness m err =>
    have hmn : ¬ m = n := by
      simp only [isRunLivenessFor] at he
      by_contra hc
      rw [if_pos hc] at he
      cases he
    simp only [step, runLivenessCheck]
    split
    · exact lookupEntry_setEntry_ne _ _ (fun hk => hmn hk.symm)
    · split
      · split
        · exact lookupEntry_setEntry_ne _ _ (fun hk => hmn hk.symm)
        · exact lookupEntry_setEntry_ne _ _ (fun hk => hmn hk.symm)
      · rfl
  | runReadiness m err =>
    simp only [step, runReadinessCheck]
    split
    · rfl
    · split
      · split <;> rfl
      · rfl
  | watchEvent m st =>
    simp only [step, grpcWatchStep]
    split
    · split <;> rfl
    · split <;> rfl

theorem step_preserves_grpc_entry (s : GrpcHandlerState) (n : String) (e : Event)
    (hs : (lookupEntry s.grpcDeps n).isSome = true)
    (he : isWatchEventFor e n = false) :
    lookupEntry (step s e).grpcDeps n = lookupEntry s.grpcDeps n := by
  cases e with
  | regGrpcDep m w =>
    simp only [step, AddGrpcReadinessCheck]
    split
    · rfl
    · next hm =>
      by_cases hmn : n = m
      · subst hmn; exact absurd hs hm
      · cases w <;> exact lookupEntry_setEntry_ne _ _ hmn
  | regReadiness m =>
    simp only [step, AddReadinessCheck]
    split <;> rfl
  | regLiveness m =>
    simp only [step, AddLivenessCheck]
    split <;> rfl
  | runReadiness m err =>
    simp only [step, runReadinessCheck]
    split
    · rfl
    · split
      · split <;> rfl
      · rfl
  | runLiveness m err =>
    simp only [step, runLivenessCheck]
    split
    · rfl
    · split
      · split <;> rfl
      · rfl
  | watchEvent m st =>
    have hmn : ¬ m = n := by
      simp only [isWatchEventFor] at he
      by_contra hc
      rw [if_pos hc] at he
      cases he
    simp only [step, grpcWatchStep]
    split
    · split
      · exact lookupEntry_setEntry_ne _ _ (fun hk => hmn hk.symm)
      · exact lookupEntry_setEntry_ne _ _ (fun hk => hmn hk.symm)
    · split
      · exact lookupEntry_setEntry_ne _ _ (fun hk => hmn hk.symm)
      · rfl

theorem run_preserves_readiness_entry (s : GrpcHandlerState) (n : String) (evs : List Event)
    (hs : (lookupEntry s.readinessChecks n).isSome = true)
    (he : ∀ e ∈ evs, isRunReadinessFor e n = false) :
    lookupEntry (run s evs).readinessChecks n = lookupEntry s.readinessChecks n := by
  induction evs generalizing s with
  | nil => rfl
  | cons e rest ih =>
    have h1 := step_preserves_readiness_entry s n e hs (he e (List.mem_cons_self _ _))
    have hs' : (lookupEntry (step s e).readinessChecks n).isSome = true := by
      rw [h1]; exact hs
    exact (ih (step s e) hs' (fun e' he' => he e' (List.mem_cons_of_mem _ he'))).trans h1

theorem run_preserves_liveness_entry (s : GrpcHandlerState) (n : String) (evs : List Event)
    (hs : (lookupEntry s.livenessChecks n).isSome = true)
    (he : ∀ e ∈ evs, isRunLivenessFor e n = false) :
    lookupEntry (run s evs).livenessChecks n = lookupEntry s.livenessChecks n := by
  induction evs generalizing s with
  | nil => rfl
  | cons e rest ih =>
    have h1 := step_preserves_liveness_entry s n e hs (he e (List.mem_cons_self _ _))
    have hs' : (lookupEntry (step s e).livenessChecks n).isSome = true := by
      rw [h1]; exact hs
    exact (ih (step s e) hs' (fun e' he' => he e' (List.mem_cons_of_mem _ he'))).trans h1

theorem run_preserves_grpc_entry (s : GrpcHandlerState) (n : String) (evs : List Event)
    (hs : (lookupEntry s.grpcDeps n).isSome = true)
    (he : ∀ e ∈ evs, isWatchEventFor e n = false) :
    lookupEntry (run s evs).grpcDeps n = lookupEntry s.grpcDeps n := by
  induction evs generalizing s with
  | nil => rfl
  | cons e rest ih =>
    have h1 := step_preserves_grpc_entry s n e hs (he e (List.mem_cons_self _ _))
    have hs' : (lookupEntry (step s e).grpcDeps n).isSome = true := by
      rw [h1]; exact hs
    exact (ih (step s e) hs' (fun e' he' => he e' (List.mem_cons_of_mem _ he'))).trans h1

/-! ### Endpoint scan lemmas -/

theorem isNone_grpcMsg (b : Bool) :
    (if b then none else some "grpc service is down" : Option String).isNone = b := by
  cases b <;> rfl

theorem entryKeys_grpcFailureView (d : List (String × Bool)) :
    entryKeys (grpcFailureView d) = entryKeys d := by
  induction d with
  | nil => rfl
  | cons p r ih =>
    simp only [grpcFailureView, entryKeys, List.map_cons] at ih ⊢
    rw [ih]

theorem grpcFailureView_all_isNone (d : List (String × Bool)) :
    (grpcFailureView d).all (fun p => p.2.isNone) = d.all (fun p => p.2) := by
  induction d with
  | nil => rfl
  | cons p r ih =>
    simp only [grpcFailureView, List.map_cons, List.all_cons] at ih ⊢
    rw [ih, isNone_grpcMsg]

theorem liveScan_fst (s : GrpcHandlerState) : (liveScan s).1 = liveAggregate s := by
  simp [liveScan, livenessOkWithResults, foldResults_fst, liveAggregate]

theorem readyScan_fst (s : GrpcHandlerState) : (readyScan s).1 = readyAggregate s := by
  simp only [readyScan, livenessOkWithResults, readinessOkWithResults,
    grpcDepsOkWithResults, readyAggregate, foldResults_fst, Bool.true_and]
  cases hL : s.livenessChecks.all (fun p => p.2.isNone)
  · simp
  · cases hR : s.readinessChecks.all (fun p => p.2.isNone)
    · simp [foldResults_fst, hR]
    · simp [foldResults_fst, hR, grpcFailureView_all_isNone]

theorem mem_liveScan_keys (s : GrpcHandlerState) (k : String) :
    k ∈ entryKeys (liveScan s).2 ↔ k ∈ entryKeys s.livenessChecks := by
  simp only [liveScan, livenessOkWithResults]
  rw [mem_foldResults_keys]
  simp [entryKeys]

theorem mem_readyScan_keys (s : GrpcHandlerState) (k : String) :
    k ∈ entryKeys (readyScan s).2 ↔
      k ∈ entryKeys s.livenessChecks
      ∨ (s.livenessChecks.all (fun p => p.2.isNone) = true
          ∧ k ∈ entryKeys s.readinessChecks)
      ∨ (s.livenessChecks.all (fun p => p.2.isNone) = true
          ∧ s.readinessChecks.all (fun p => p.2.isNone) = true
          ∧ k ∈ entryKeys s.grpcDeps) := by
  simp only [readyScan, livenessOkWithResults, readinessOkWithResults,
    grpcDepsOkWithResults, foldResults_fst, Bool.true_and]
  cases hL : s.livenessChecks.all (fun p => p.2.isNone)
  · simp only [Bool.false_eq_true, if_false, false_and, and_false, or_false]
    rw [mem_foldResults_keys]
    simp [entryKeys]
  · cases hR : s.readinessChecks.all (fun p => p.2.isNone)
    · simp only [if_true, foldResults_fst, Bool.true_and, hR, Bool.false_eq_true,
        if_false, true_and, false_and, and_false, or_false]
      simp only [mem_foldResults_keys]
      simp [entryKeys]
    · simp only [if_true, foldResults_fst, Bool.true_and, hR, true_and]
      simp only [mem_foldResults_keys]
      rw [entryKeys_grpcFailureView]
      simp [entryKeys]
      tauto

theorem readyAggregate_true_iff (s : GrpcHandlerState) :
    readyAggregate s = true ↔ allHealthy s := by
  simp only [readyAggregate, allHealthy, Bool.and_eq_true, List.all_eq_true,
    Option.isNone_iff_eq_none]
  tauto

theorem liveAggregate_true_iff (s : GrpcHandlerState) :
    liveAggregate s = true ↔ ∀ p ∈ s.livenessChecks, p.2 = none := by
  simp [liveAggregate, List.all_eq_true, Option.isNone_iff_eq_none]

theorem ReadyEndpoint_status_eq (s : GrpcHandlerState) (q : String) :
    (ReadyEndpoint s "GET" q).status = if readyAggregate s then 200 else 503 := by
  simp only [ReadyEndpoint]
  rw [if_neg (fun hc => hc rfl), readyScan_fst]
  split <;> rfl

theorem LiveEndpoint_status_eq (s : GrpcHandlerState) (q : String) :
    (LiveEndpoint s "GET" q).status = if liveAggregate s then 200 else 503 := by
  simp only [LiveEndpoint]
  rw [if_neg (fun hc => hc rfl), liveScan_fst]
  split <;> rfl

/-! ## Claims -/

/-- Claim C1 counterexample: the claim fails as stated.  After readiness
check "a" recovers (the full aggregate holds, so the flag moves to
SERVING), registering a second readiness check "b" stores its placeholder
failure without touching the flag; the reached state has the flag SERVING
while the stored error of "b" is non-nil. -/
theorem C1_counterexample :
    (run initialState [Event.regReadiness "a", Event.runReadiness "a" none,
        Event.regReadiness "b"]).servingStatus = true
    ∧ ¬ allHealthy (run initialState [Event.regReadiness "a",
        Event.runReadiness "a" none, Event.regReadiness "b"]) := by
  decide

/-- Claim C1 (amended): restricted to check-cycle and watch events — no
registrations — the invariant "flag SERVING implies every stored readiness
error nil, every stored liveness error nil, every gRPC dependency flag up"
is preserved along every event sequence from any state satisfying it (the
initial state does).  Registering a new check while the flag is SERVING is
the only transition of the model that can break it. -/
theorem C1_no_false_positive (s : GrpcHandlerState) (evs : List Event)
    (hevs : ∀ e ∈ evs, isRegistration e = false)
    (hinv : s.servingStatus = true → allHealthy s) :
    (run s evs).servingStatus = true → allHealthy (run s evs) :=
  run_flag_invariant s evs hevs hinv

/-- Claim C1 witness: the invariant applied on a concrete trace in which
the flag does reach SERVING. -/
theorem C1_no_false_positive_witness :
    allHealthy (run (run initialState [Event.regReadiness "a"])
      [Event.runReadiness "a" none]) :=
  C1_no_false_positive (run initialState [Event.regReadiness "a"])
    [Event.runReadiness "a" none] (by decide) (by decide) (by decide)

/-- Claim C2: in every namespace, a registration call under an
already-registered name returns a conflict error and leaves the whole
state — in particular the first registration's stored result —
unchanged. -/
theorem C2_duplicate_registration_conflict (s : GrpcHandlerState) (n : String) :
    ((lookupEntry s.readinessChecks n).isSome = true →
      (AddReadinessCheck s n).2 = s
        ∧ ∃ msg, (AddReadinessCheck s n).1 = Except.error msg)
  ∧ ((lookupEntry s.livenessChecks n).isSome = true →
      (AddLivenessCheck s n).2 = s
        ∧ ∃ msg, (AddLivenessCheck s n).1 = Except.error msg)
  ∧ (∀ watchErr, (lookupEntry s.grpcDeps n).isSome = true →
      (AddGrpcReadinessCheck s n watchErr).2 = s
        ∧ ∃ msg, (AddGrpcReadinessCheck s n watchErr).1 = Except.error msg) := by
  refine ⟨fun h => ?_, fun h => ?_, fun w h => ?_⟩
  · simp only [AddReadinessCheck]
    rw [if_pos h]
    exact ⟨rfl, _, rfl⟩
  · simp only [AddLivenessCheck]
    rw [if_pos h]
    exact ⟨rfl, _, rfl⟩
  · simp only [AddGrpcReadinessCheck]
    rw [if_pos h]
    exact ⟨rfl, _, rfl⟩

/-- Claim C2 witness: registering "db" twice as a readiness check. -/
theorem C2_duplicate_registration_conflict_witness :
    (AddReadinessCheck (run initialState [Event.regReadiness "db"]) "db").2
      = run initialState [Event.regReadiness "db"]
    ∧ ∃ msg, (AddReadinessCheck (run initialState [Event.regReadiness "db"]) "db").1
      = Except.error msg :=
  (C2_duplicate_registration_conflict (run initialState [Event.regReadiness "db"]) "db").1
    (by decide)

/-- Claim C3: a name freshly registered in any of the three namespaces is
stored as unhealthy (a non-nil placeholder error, or a down flag) from the
moment registration returns, and stays so across any events that are not a
check cycle / watch event for that very name. -/
theorem C3_fresh_registration_unhealthy (s : GrpcHandlerState) (n : String)
    (evs : List Event) :
    ((lookupEntry s.readinessChecks n).isSome = false →
      (∀ e ∈ evs, isRunReadinessFor e n = false) →
      ∃ msg, lookupEntry (run (AddReadinessCheck s n).2 evs).readinessChecks n
        = some (some msg))
  ∧ ((lookupEntry s.livenessChecks n).isSome = false →
      (∀ e ∈ evs, isRunLivenessFor e n = false) →
      ∃ msg, lookupEntry (run (AddLivenessCheck s n).2 evs).livenessChecks n
        = some (some msg))
  ∧ (∀ watchErr, (lookupEntry s.grpcDeps n).isSome = false →
      (∀ e ∈ evs, isWatchEventFor e n = false) →
      lookupEntry (run (AddGrpcReadinessCheck s n watchErr).2 evs).grpcDeps n
        = some false) := by
  refine ⟨fun h he => ?_, fun h he => ?_, fun w h he => ?_⟩
  · have h0 : lookupEntry (AddReadinessCheck s n).2.readinessChecks n
        = some (some "placeholder") := by
      simp only [AddReadinessCheck]
      rw [if_neg (by simp [h])]
      exact lookupEntry_setEntry_self _ _ _
    have hsome : (lookupEntry (AddReadinessCheck s n).2.readinessChecks n).isSome = true := by
      rw [h0]; rfl
    exact ⟨"placeholder", (run_preserves_readiness_entry _ n evs hsome he).trans h0⟩
  · have h0 : lookupEntry (AddLivenessCheck s n).2.livenessChecks n
        = some (some "placeholder") := by
      simp only [AddLivenessCheck]
      rw [if_neg (by simp [h])]
      exact lookupEntry_setEntry_self _ _ _
    have hsome : (lookupEntry (AddLivenessCheck s n).2.livenessChecks n).isSome = true := by
      rw [h0]; rfl
    exact ⟨"placeholder", (run_preserves_liveness_entry _ n evs hsome he).trans h0⟩
  · have h0 : lookupEntry (AddGrpcReadinessCheck s n w).2.grpcDeps n = some false := by
      simp only [AddGrpcReadinessCheck]
      rw [if_neg (by simp [h])]
      cases w <;> exact lookupEntry_setEntry_self _ _ _
    have hsome : (lookupEntry (AddGrpcReadinessCheck s n w).2.grpcDeps n).isSome = true := by
      rw [h0]; rfl
    exact (run_preserves_grpc_entry _ n evs hsome he).trans h0

/-- Claim C3 witness: a freshly registered readiness check "db" still holds
its placeholder failure after an unrelated liveness cycle. -/
theorem C3_fresh_registration_unhealthy_witness :
    ∃ msg, lookupEntry (run (AddReadinessCheck initialState "db").2
      [Event.runLiveness "mem" none]).readinessChecks "db" = some (some msg) :=
  (C3_fresh_registration_unhealthy initialState "db" [Event.runLiveness "mem" none]).1
    (by decide) (by decide)

/-- Claim C4: the readiness aggregate of /ready is healthy iff every
readiness result, every liveness result and every gRPC dependency flag is
healthy, while the liveness aggregate of /live depends only on the
liveness results (replacing the readiness and gRPC sets changes nothing). -/
theorem C4_aggregate_semantics (s : GrpcHandlerState) :
    ((ReadyEndpoint s "GET" "").status = 200 ↔ allHealthy s)
  ∧ ((LiveEndpoint s "GET" "").status = 200 ↔ ∀ p ∈ s.livenessChecks, p.2 = none)
  ∧ (∀ rc gd, LiveEndpoint { s with readinessChecks := rc, grpcDeps := gd } "GET" ""
      = LiveEndpoint s "GET" "") := by
  refine ⟨?_, ?_, fun rc gd => rfl⟩
  · rw [ReadyEndpoint_status_eq, ← readyAggregate_true_iff]
    cases h : readyAggregate s <;> simp [h]
  · rw [LiveEndpoint_status_eq, ← liveAggregate_true_iff]
    cases h : liveAggregate s <;> simp [h]

/-- Claim C5: on the recovery path (previously Failed/down, new OK/serving)
the full aggregate is re-evaluated after storing the recovery, so if any
other result in any namespace is still Failed/down, the serving flag is
left exactly as it was — a single recovery never raises it to SERVING. -/
theorem C5_single_recovery_not_sufficient (s : GrpcHandlerState) (n : String) :
    ((lookupEntry s.readinessChecks n).getD none ≠ none →
      ((∃ p ∈ s.readinessChecks, p.1 ≠ n ∧ p.2 ≠ none)
        ∨ (∃ p ∈ s.livenessChecks, p.2 ≠ none)
        ∨ (∃ p ∈ s.grpcDeps, p.2 = false)) →
      (runReadinessCheck s n none).servingStatus = s.servingStatus)
  ∧ ((lookupEntry s.livenessChecks n).getD none ≠ none →
      ((∃ p ∈ s.livenessChecks, p.1 ≠ n ∧ p.2 ≠ none)
        ∨ (∃ p ∈ s.readinessChecks, p.2 ≠ none)
        ∨ (∃ p ∈ s.grpcDeps, p.2 = false)) →
      (runLivenessCheck s n none).servingStatus = s.servingStatus)
  ∧ ((lookupEntry s.grpcDeps n).getD false = false →
      ((∃ p ∈ s.grpcDeps, p.1 ≠ n ∧ p.2 = false)
        ∨ (∃ p ∈ s.readinessChecks, p.2 ≠ none)
        ∨ (∃ p ∈ s.livenessChecks, p.2 ≠ none)) →
      (grpcWatchStep s n GrpcStatus.serving).servingStatus = s.servingStatus) := by
  refine ⟨fun hprev hother => ?_, fun hprev hother => ?_, fun hprev hother => ?_⟩
  · have hagg : (areChecksOk { s with readinessChecks := setEntry s.readinessChecks n none }
        && areGrpcDepsOk { s with readinessChecks := setEntry s.readinessChecks n none })
        = false := by
      rcases hother with ⟨p, hp, hp1, hp2⟩ | ⟨p, hp, hp2⟩ | ⟨p, hp, hp2⟩
      · simp [areChecksOk, all_isNone_false_of_mem (mem_setEntry_of_ne hp hp1) hp2]
      · simp [areChecksOk, all_isNone_false_of_mem hp hp2]
      · simp [areGrpcDepsOk, all_snd_false_of_mem hp hp2]
    simp only [runReadinessCheck]
    rw [if_neg (fun hc => hprev hc.1), if_pos ⟨hprev, trivial⟩, if_neg (by simp [hagg])]
  · have hagg : (areChecksOk { s with livenessChecks := setEntry s.livenessChecks n none }
        && areGrpcDepsOk { s with livenessChecks := setEntry s.livenessChecks n none })
        = false := by
      rcases hother with ⟨p, hp, hp1, hp2⟩ | ⟨p, hp, hp2⟩ | ⟨p, hp, hp2⟩
      · simp [areChecksOk, all_isNone_false_of_mem (mem_setEntry_of_ne hp hp1) hp2]
      · simp [areChecksOk, all_isNone_false_of_mem hp hp2]
      · simp [areGrpcDepsOk, all_snd_false_of_mem hp hp2]
    simp only [runLivenessCheck]
    rw [if_neg (fun hc => hprev hc.1), if_pos ⟨hprev, trivial⟩, if_neg (by simp [hagg])]
  · have hagg : (areGrpcDepsOk { s with grpcDeps := setEntry s.grpcDeps n true }
        && areChecksOk { s with grpcDeps := setEntry s.grpcDeps n true }) = false := by
      rcases hother with ⟨p, hp, hp1, hp2⟩ | ⟨p, hp, hp2⟩ | ⟨p, hp, hp2⟩
      · simp [areGrpcDepsOk, all_snd_false_of_mem (mem_setEntry_of_ne hp hp1) hp2]
      · simp [areChecksOk, all_isNone_false_of_mem hp hp2]
      · simp [areChecksOk, all_isNone_false_of_mem hp hp2]
    simp only [grpcWatchStep]
    rw [if_pos ⟨trivial, hprev⟩, if_neg (by simp [hagg])]

/-- Claim C5 witness: readiness checks "a" and "b" both failed; "a"
recovers; the flag value is unchanged. -/
theorem C5_single_recovery_not_sufficient_witness :
    (runReadinessCheck { initialState with
        readinessChecks := [("a", some "x"), ("b", some "y")] } "a" none).servingStatus
      = ({ initialState with
        readinessChecks := [("a", some "x"), ("b", some "y")] } : GrpcHandlerState).servingStatus :=
  (C5_single_recovery_not_sufficient { initialState with
      readinessChecks := [("a", some "x"), ("b", some "y")] } "a").1
    (by decide) (by decide)

/-- Claim C6 counterexample: the claim fails as stated.  Readiness check
"a" is stored Failed with message "x"; a new cycle fails with message "y";
the default branch of the switch stores nothing, so the stored result
keeps the old message "x" instead of the claimed new result "y". -/
theorem C6_counterexample :
    runReadinessCheck { initialState with readinessChecks := [("a", some "x")] }
        "a" (some "y")
      = { initialState with readinessChecks := [("a", some "x")] }
    ∧ lookupEntry (runReadinessCheck { initialState with
        readinessChecks := [("a", some "x")] } "a" (some "y")).readinessChecks "a"
      ≠ some (some "y") := by
  decide

/-- Claim C6 (amended): when the new outcome has the same success/failure
class as the stored one (OK after OK, or Failed after Failed even with a
different message), the cycle stores nothing and touches nothing: the
handler state — all result sets and the flag — is exactly unchanged, and
in particular the new failure message is discarded. -/
theorem C6_same_class_is_noop (s : GrpcHandlerState) (n : String) (err : ErrRes) :
    (((lookupEntry s.readinessChecks n).getD none = none ↔ err = none) →
      runReadinessCheck s n err = s)
  ∧ (((lookupEntry s.livenessChecks n).getD none = none ↔ err = none) →
      runLivenessCheck s n err = s) := by
  constructor
  · intro hc
    simp only [runReadinessCheck]
    rw [if_neg (fun h1 => h1.2 (hc.mp h1.1)), if_neg (fun h2 => h2.1 (hc.mpr h2.2))]
  · intro hc
    simp only [runLivenessCheck]
    rw [if_neg (fun h1 => h1.2 (hc.mp h1.1)), if_neg (fun h2 => h2.1 (hc.mpr h2.2))]

/-- Claim C6 witness: a Failed-to-Failed cycle with a changed message
leaves the state unchanged. -/
theorem C6_same_class_is_noop_witness :
    runReadinessCheck { initialState with readinessChecks := [("a", some "x")] }
        "a" (some "y")
      = { initialState with readinessChecks := [("a", some "x")] } :=
  (C6_same_class_is_noop { initialState with readinessChecks := [("a", some "x")] }
      "a" (some "y")).1 (by decide)

/-- Claim C7 counterexample: the claim fails as stated.  With liveness
check "l" failing and readiness check "r" registered, the short-circuited
scan of `ReadyEndpoint` never reaches the readiness namespace: the full=1
body contains only the key "l" and omits the registered name "r". -/
theorem C7_counterexample :
    (ReadyEndpoint { initialState with
          livenessChecks := [("l", some "boom")]
          readinessChecks := [("r", none)] } "GET" "1").body
      = HttpBody.jsonMap [("l", "boom")]
    ∧ ¬ "r" ∈ bodyKeys (ReadyEndpoint { initialState with
          livenessChecks := [("l", some "boom")]
          readinessChecks := [("r", none)] } "GET" "1").body := by
  decide

/-- Claim C7 (amended): with full=1 the body of /ready is a JSON map whose
key set consists of the liveness names, plus the readiness names provided
every liveness check passes, plus the gRPC dependency names provided
additionally every readiness check passes.  The key set is exactly all
registered names whenever the aggregate is healthy, but namespaces after
the first failing one (in the order liveness, readiness, gRPC) are
omitted. -/
theorem C7_full_body_key_set (s : GrpcHandlerState) (k : String) :
    (∃ m, (ReadyEndpoint s "GET" "1").body = HttpBody.jsonMap m)
    ∧ (k ∈ bodyKeys (ReadyEndpoint s "GET" "1").body ↔
        k ∈ entryKeys s.livenessChecks
        ∨ (s.livenessChecks.all (fun p => p.2.isNone) = true
            ∧ k ∈ entryKeys s.readinessChecks)
        ∨ (s.livenessChecks.all (fun p => p.2.isNone) = true
            ∧ s.readinessChecks.all (fun p => p.2.isNone) = true
            ∧ k ∈ entryKeys s.grpcDeps)) := by
  have hbody : (ReadyEndpoint s "GET" "1").body = HttpBody.jsonMap (readyScan s).2 := by
    simp only [ReadyEndpoint]
    rw [if_neg (fun hc => hc rfl), if_pos trivial]
  refine ⟨⟨(readyScan s).2, hbody⟩, ?_⟩
  rw [hbody]
  exact mem_readyScan_keys s k

/-- Claim C8: on a transport error the watch goroutine does end permanently
with the dependency flag frozen; but on clean end-of-stream the code does
not end cleanly at all — the `break` only leaves the switch, control falls
through to a dereference of the nil response, which is a process-fatal nil
dereference, contradicting the non-fatality half of the claim. -/
theorem C8_eof_crashes_instead_of_terminating :
    watchLoopIteration initialState "dep" RecvResult.eof = WatchLoopAction.crash
    ∧ WatchLoopAction.crash ≠ WatchLoopAction.terminate
    ∧ ∀ s n msg, watchLoopIteration s n (RecvResult.transportError msg)
        = WatchLoopAction.terminate :=
  ⟨rfl, by decide, fun _ _ _ => rfl⟩

/-- Claim C9: a non-GET request to either endpoint gets 405 with the
method-not-allowed text; a GET gets 200 when the relevant aggregate is
healthy and 503 otherwise, with body "{}" without full=1 and the per-check
JSON map with full=1. -/
theorem C9_http_contract (s : GrpcHandlerState) (method q : String) :
    (method ≠ "GET" →
      ReadyEndpoint s method q = ⟨405, HttpBody.errText "method not allowed"⟩
      ∧ LiveEndpoint s method q = ⟨405, HttpBody.errText "method not allowed"⟩)
  ∧ ((ReadyEndpoint s "GET" q).status = if readyAggregate s then 200 else 503)
  ∧ ((LiveEndpoint s "GET" q).status = if liveAggregate s then 200 else 503)
  ∧ (q ≠ "1" →
      (ReadyEndpoint s "GET" q).body = HttpBody.emptyObj
      ∧ (LiveEndpoint s "GET" q).body = HttpBody.emptyObj)
  ∧ (∃ m, (ReadyEndpoint s "GET" "1").body = HttpBody.jsonMap m)
  ∧ (∃ m, (LiveEndpoint s "GET" "1").body = HttpBody.jsonMap m) := by
  refine ⟨fun hm => ⟨?_, ?_⟩, ReadyEndpoint_status_eq s q, LiveEndpoint_status_eq s q,
    fun hq => ⟨?_, ?_⟩, ⟨(readyScan s).2, ?_⟩, ⟨(liveScan s).2, ?_⟩⟩
  · simp only [ReadyEndpoint]
    rw [if_pos hm]
  · simp only [LiveEndpoint]
    rw [if_pos hm]
  · simp only [ReadyEndpoint]
    rw [if_neg (fun hc => hc rfl), if_neg hq]
  · simp only [LiveEndpoint]
    rw [if_neg (fun hc => hc rfl), if_neg hq]
  · simp only [ReadyEndpoint]
    rw [if_neg (fun hc => hc rfl), if_pos trivial]
  · simp only [LiveEndpoint]
    rw [if_neg (fun hc => hc rfl), if_pos trivial]

/-- Claim C9 witness: a POST gets 405 and a plain GET on the initial state
gets the empty body. -/
theorem C9_http_contract_witness :
    ReadyEndpoint initialState "POST" "" = ⟨405, HttpBody.errText "method not allowed"⟩
    ∧ (LiveEndpoint initialState "GET" "").body = HttpBody.emptyObj :=
  ⟨((C9_http_contract initialState "POST" "").1 (by decide)).1,
    ((C9_http_contract initialState "GET" "").2.2.2.1 (by decide)).2⟩

/-- Claim C10: the check produced by `CheckGRPC` returns nil exactly when
the unary RPC succeeds with status SERVING; an RPC error (including the
deadline of the 1-second timeout, surfacing as an error outcome) and every
non-SERVING status — UNKNOWN included — yield a non-nil failure. -/
theorem C10_checkgrpc_serving_only (o : CheckRpcOutcome) :
    (CheckGRPC o = none ↔ o = CheckRpcOutcome.response GrpcStatus.serving)
  ∧ (∀ st, st ≠ GrpcStatus.serving →
      ∃ msg, CheckGRPC (CheckRpcOutcome.response st) = some msg)
  ∧ (∃ msg, CheckGRPC (CheckRpcOutcome.response GrpcStatus.unknown) = some msg) := by
  refine ⟨?_, fun st hst => ?_, ⟨_, rfl⟩⟩
  · cases o with
    | rpcError msg => simp [CheckGRPC]
    | response st =>
      by_cases hst : st = GrpcStatus.serving
      · subst hst
        simp [CheckGRPC]
      · simp [CheckGRPC, hst]
  · simp only [CheckGRPC]
    rw [if_neg hst]
    exact ⟨_, rfl⟩

/-- Claim C10 witness: a response with status UNKNOWN is a failure. -/
theorem C10_checkgrpc_serving_only_witness :
    ∃ msg, CheckGRPC (CheckRpcOutcome.response GrpcStatus.unknown) = some msg :=
  (C10_checkgrpc_serving_only (CheckRpcOutcome.response GrpcStatus.unknown)).2.1
    GrpcStatus.unknown (by decide)

end Healthcheck
